import Mathlib

/-!
# Verification of the Frame Coordination Core (`src/frames.ts`)

Shallow embedding of the navigation / lifecycle / network-idle coordination
layer of a browser-automation engine.  JavaScript promises are modelled as an
explicit settle-once state (`PromiseState`); the asynchronous event handlers of
the source become pure state-transition functions; sets become lists with
decidable membership; timers become an explicit `Option Nat` holding the
scheduled duration in milliseconds.  Opaque external values (execution
contexts, request objects) are modelled by identities carrying exactly the
fields the coordination code reads.
-/

/-- A JavaScript promise, as observed by the coordination layer: pending until
settled, and settling (resolve or reject) is a one-shot operation — later
resolve/reject calls on a settled promise are ignored. -/
inductive PromiseState (α : Type) where
  | pending
  | resolved (value : α)
  | rejected (message : String)
deriving DecidableEq, Repr

/-- Resolving a promise settles it only if it is still pending. -/
def PromiseState.resolve {α : Type} (p : PromiseState α) (v : α) : PromiseState α :=
  match p with
  | .pending => .resolved v
  | _ => p

/-- Rejecting a promise settles it only if it is still pending. -/
def PromiseState.reject {α : Type} (p : PromiseState α) (e : String) : PromiseState α :=
  match p with
  | .pending => .rejected e
  | _ => p

/-- `e.message.includes(sub)` of JavaScript: substring containment. -/
def strContains (s sub : String) : Bool :=
  decide (sub.toList <:+: s.toList)

/-- A network request as seen by the frame coordination code: the frame it
belongs to, its `_documentId` (empty string when absent, as in the source),
and the `_isFavicon` flag. -/
structure Request where
  frameId : String
  documentId : String
  isFavicon : Bool
  /-- whether `request.redirectedFrom()` is non-null -/
  redirected : Bool
deriving DecidableEq, Repr

/-- `helper.urlMatches(url, match)`: an absent matcher matches every URL;
otherwise the external URLMatcher utility decides (modelled as an opaque
predicate, since the utility is outside this file's scope). -/
def urlMatches (url : String) (matcher : Option (String → Bool)) : Bool :=
  match matcher with
  | none => true
  | some p => p url

/-- The `_onSameDocument` waiter of a `FrameTask`. -/
structure SameDocumentWaiter where
  urlMatch : Option (String → Bool)
  promise : PromiseState Unit

/-- The `_onSpecificDocument` waiter of a `FrameTask`. -/
structure SpecificDocumentWaiter where
  expectedDocumentId : String
  promise : PromiseState Unit
deriving DecidableEq, Repr

/-- The `_onNewDocument` waiter of a `FrameTask`; resolves with the committed
document id. -/
structure NewDocumentWaiter where
  urlMatch : Option (String → Bool)
  promise : PromiseState String

/-- The `_onLifecycle` waiter of a `FrameTask`. -/
structure LifecycleWaiter where
  waitUntil : String
  promise : PromiseState Unit
deriving DecidableEq, Repr

/-- `FrameTask`: one-shot observer registered on one frame.  It holds at most
one waiter of each kind plus the map from document id to the top-level request
(`_requestMap`). -/
structure FrameTask where
  requestMap : List (String × Request)
  sameDocumentWaiter : Option SameDocumentWaiter
  specificDocumentWaiter : Option SpecificDocumentWaiter
  newDocumentWaiter : Option NewDocumentWaiter
  lifecycleWaiter : Option LifecycleWaiter

/-- A freshly constructed `FrameTask`: no waiters, empty request map. -/
def FrameTask.initial : FrameTask :=
  { requestMap := []
    sameDocumentWaiter := none
    specificDocumentWaiter := none
    newDocumentWaiter := none
    lifecycleWaiter := none }

/-- `FrameTask.onRequest`: requests without a document id, or redirect hops,
are ignored; others are stored by document id. -/
def FrameTask.onRequest (t : FrameTask) (request : Request) : FrameTask :=
  if request.documentId = "" ∨ request.redirected then t
  else { t with requestMap := (request.documentId, request) :: t.requestMap }

/-- `FrameTask.onSameDocument`: resolves the same-document waiter when the
frame's (already updated) URL matches. -/
def FrameTask.onSameDocument (t : FrameTask) (frameUrl : String) : FrameTask :=
  match t.sameDocumentWaiter with
  | some w =>
    if urlMatches frameUrl w.urlMatch then
      { t with sameDocumentWaiter := some { w with promise := w.promise.resolve () } }
    else t
  | none => t

/-- `FrameTask.onNewDocument(documentId, error?)`, straight from the source:
the specific-document waiter resolves on its expected id without error,
rejects with the error for its expected id, rejects with
"Navigation interrupted by another one" on a different id without error, and
is left untouched on a different id that carries an error; the any-new-document
waiter rejects on any error and otherwise resolves with the id when the frame
URL matches.  `frameUrl` is `this._frame.url()` at notification time. -/
def FrameTask.onNewDocument (t : FrameTask) (frameUrl : String) (documentId : String)
    (error : Option String) : FrameTask :=
  let t :=
    match t.specificDocumentWaiter with
    | some w =>
      if documentId = w.expectedDocumentId then
        match error with
        | some e =>
          { t with specificDocumentWaiter := some { w with promise := w.promise.reject e } }
        | none =>
          { t with specificDocumentWaiter := some { w with promise := w.promise.resolve () } }
      else if error.isNone then
        let w2 := { w with promise := w.promise.reject "Navigation interrupted by another one" }
        { t with specificDocumentWaiter := some w2 }
      else t
    | none => t
  match t.newDocumentWaiter with
  | some w =>
    match error with
    | some e => { t with newDocumentWaiter := some { w with promise := w.promise.reject e } }
    | none =>
      if urlMatches frameUrl w.urlMatch then
        { t with newDocumentWaiter := some { w with promise := w.promise.resolve documentId } }
      else t
  | none => t

/-- `FrameTask.waitForSpecificDocument(expectedDocumentId)`: asserts that no
specific-document waiter is registered yet (`none` models the assertion
failing), then registers a waiter with a pending promise. -/
def FrameTask.waitForSpecificDocument (t : FrameTask) (expectedDocumentId : String) :
    Option FrameTask :=
  match t.specificDocumentWaiter with
  | some _ => none
  | none => some { t with specificDocumentWaiter := some ⟨expectedDocumentId, .pending⟩ }

/-- `FrameTask.waitForSameDocumentNavigation(url?)`: registers the waiter
(`none` models the assertion on a duplicate registration failing). -/
def FrameTask.waitForSameDocumentNavigation (t : FrameTask) (url : Option (String → Bool)) :
    Option FrameTask :=
  match t.sameDocumentWaiter with
  | some _ => none
  | none => some { t with sameDocumentWaiter := some { urlMatch := url, promise := .pending } }

/-- `FrameTask.waitForNewDocument(url?)`: registers the waiter (`none` models
the assertion on a duplicate registration failing). -/
def FrameTask.waitForNewDocument (t : FrameTask) (url : Option (String → Bool)) :
    Option FrameTask :=
  match t.newDocumentWaiter with
  | some _ => none
  | none => some { t with newDocumentWaiter := some { urlMatch := url, promise := .pending } }

/-- A frame subtree as `_checkLifecycleRecursively` traverses it: the frame's
`_firedLifecycleEvents` set and its child frames. -/
inductive FrameTree where
  | node (firedLifecycleEvents : List String) (children : List FrameTree)
deriving Repr

/-- The `_firedLifecycleEvents` of the root of a subtree. -/
def FrameTree.fired : FrameTree → List String
  | .node f _ => f

/-- The child frames of the root of a subtree. -/
def FrameTree.children : FrameTree → List FrameTree
  | .node _ c => c

mutual

/-- `FrameTask._checkLifecycleRecursively(frame, waitUntil)`: the event has
fired on the frame itself and, recursively, on every child frame. -/
def checkLifecycleRecursively : FrameTree → String → Bool
  | .node fired children, waitUntil =>
    fired.contains waitUntil && checkLifecycleForest children waitUntil

/-- The `for`-loop of `_checkLifecycleRecursively` over the child list. -/
def checkLifecycleForest : List FrameTree → String → Bool
  | [], _ => true
  | c :: cs, waitUntil => checkLifecycleRecursively c waitUntil && checkLifecycleForest cs waitUntil

end

mutual

/-- All frames of a subtree: the frame itself and, recursively, every
descendant frame. -/
def subtreeNodes : FrameTree → List FrameTree
  | .node fired children => .node fired children :: subtreeForest children

/-- All frames of a forest of subtrees. -/
def subtreeForest : List FrameTree → List FrameTree
  | [] => []
  | c :: cs => subtreeNodes c ++ subtreeForest cs

end

/-- Modelled from the spec: `types.kLifecycleEvents` lives in `types.ts`,
which is not part of the provided sources.  Per the spec, the accepted
lifecycle event values are `domcontentloaded`, `load` and `networkidle`. -/
def kLifecycleEvents : List String := ["domcontentloaded", "load", "networkidle"]

/-- The outcome of `FrameTask.waitForLifecycle`: either the returned promise is
already resolved (`Promise.resolve()`, no waiter registered) or a pending
waiter has been registered on the task. -/
inductive WaitForLifecycleOutcome where
  | resolvedNow (t : FrameTask)
  | registered (t : FrameTask)

/-- `FrameTask.waitForLifecycle(waitUntil)`: maps the legacy `networkidle0` to
`networkidle`; throws (`Except.error`) for a value outside
`kLifecycleEvents`; resolves immediately when the subtree check already holds;
otherwise registers the lifecycle waiter (the outer `none` models the
assertion against a duplicate registration failing). -/
def FrameTask.waitForLifecycle (t : FrameTask) (tree : FrameTree) (waitUntilArg : String) :
    Option (Except String WaitForLifecycleOutcome) :=
  let waitUntil := if waitUntilArg = "networkidle0" then "networkidle" else waitUntilArg
  if ¬ kLifecycleEvents.contains waitUntil then
    some (.error ("Unsupported waitUntil option " ++ waitUntil))
  else if checkLifecycleRecursively tree waitUntil then
    some (.ok (.resolvedNow t))
  else
    match t.lifecycleWaiter with
    | some _ => none
    | none => some (.ok (.registered { t with lifecycleWaiter := some ⟨waitUntil, .pending⟩ }))

/-- `FrameTask.onLifecycle`: on every lifecycle notification reaching the
task, the subtree predicate is recomputed against the task's frame (`tree` is
that frame's current subtree) and the waiter resolves when it holds. -/
def FrameTask.onLifecycle (t : FrameTask) (tree : FrameTree) : FrameTask :=
  match t.lifecycleWaiter with
  | some w =>
    if checkLifecycleRecursively tree w.waitUntil then
      { t with lifecycleWaiter := some { w with promise := w.promise.resolve () } }
    else t
  | none => t

/-- A `RerunnableTask`, reduced to the one observable the claims speak about:
its external promise. -/
structure RerunnableTask where
  promise : PromiseState Nat
deriving DecidableEq, Repr

/-- `RerunnableTask.terminate(error)`: rejects the external promise. -/
def RerunnableTask.terminate (t : RerunnableTask) (error : String) : RerunnableTask :=
  { promise := t.promise.reject error }

/-- The outcome of one `rerun(context)` attempt: the awaited poll either
produced a result handle or failed with an error message. -/
inductive RerunOutcome where
  | success (handle : Nat)
  | failure (message : String)

/-- The tail of `RerunnableTask.rerun` once the poll attempt settles: a
successful attempt resolves the external promise; a failure whose message
contains "Execution context was destroyed" or "Cannot find context with
specified id" is swallowed (the task stays pending, to be rerun in the next
context); any other failure rejects the external promise. -/
def RerunnableTask.rerunSettled (t : RerunnableTask) (outcome : RerunOutcome) : RerunnableTask :=
  match outcome with
  | .success v => { promise := t.promise.resolve v }
  | .failure m =>
    if strContains m "Execution context was destroyed" then t
    else if strContains m "Cannot find context with specified id" then t
    else { promise := t.promise.reject m }

/-- A per-world `ContextData` slot: the current execution context (identified
by a `Nat`), the current `contextPromise`, and the registered rerunnable
tasks.  The source re-issues a fresh `contextPromise` each time the slot is
cleared; only the current promise is tracked here (holders of a superseded
promise saw it settle before it was replaced). -/
structure ContextData where
  context : Option Nat
  contextPromise : PromiseState Nat
  rerunnableTasks : List RerunnableTask

/-- `Frame._setContext(contextType, context)` restricted to one slot: a
non-null context is stored and resolves the current `contextPromise` (each
registered rerunnable task is also rerun against it — an asynchronous attempt
whose settlement is the separate `RerunnableTask.rerunSettled` step); a null
context clears the slot and re-issues a fresh pending `contextPromise`. -/
def ContextData.setContext (d : ContextData) (context : Option Nat) : ContextData :=
  match context with
  | some c => { d with context := some c, contextPromise := d.contextPromise.resolve c }
  | none => { d with context := none, contextPromise := .pending }

/-- `Frame._contextCreated(contextType, context)` restricted to one slot: if
the slot already holds a context (racey duplicate creation), tear the slot
down first, then install the new context. -/
def ContextData.contextCreated (d : ContextData) (context : Nat) : ContextData :=
  let d := if d.context.isSome then d.setContext none else d
  d.setContext (some context)

/-- A fresh slot, as the `Frame` constructor makes it: the constructor first
installs a dummy never-resolving promise and then calls `_setContext(type,
null)`, leaving a cleared slot with a pending promise and no tasks. -/
def ContextData.initial : ContextData :=
  ContextData.setContext { context := none, contextPromise := .pending, rerunnableTasks := [] } none

/-- The mutable state of one `Frame`.  The network-idle timer is modelled as
`some duration` while a timeout is scheduled and has not yet fired, `none`
otherwise (the source also keeps the stale handle of a fired timeout in the
field, but that handle only feeds a debug assertion). -/
structure FrameState where
  id : String
  parentId : Option String
  childIds : List String
  url : String
  name : String
  lastDocumentId : String
  pendingDocumentId : String
  firedLifecycleEvents : List String
  inflightRequests : List Request
  networkIdleTimer : Option Nat
  detached : Bool
  detachedPromise : PromiseState Unit
  frameTasks : List FrameTask
  mainWorld : ContextData
  utilityWorld : ContextData

/-- The `Frame` constructor: every set empty, no pending/last document, no
network-idle timer, both context slots cleared with pending promises. -/
def FrameState.mkFrame (id : String) (parentId : Option String) : FrameState :=
  { id := id
    parentId := parentId
    childIds := []
    url := ""
    name := ""
    lastDocumentId := ""
    pendingDocumentId := ""
    firedLifecycleEvents := []
    inflightRequests := []
    networkIdleTimer := none
    detached := false
    detachedPromise := .pending
    frameTasks := []
    mainWorld := ContextData.initial
    utilityWorld := ContextData.initial }

/-- `Frame._startNetworkIdleTimer`: no timer is scheduled when `networkidle`
already fired; otherwise a 500 ms timeout is scheduled.  (The source also
asserts that no timer handle is stored.) -/
def FrameState.startNetworkIdleTimer (f : FrameState) : FrameState :=
  if f.firedLifecycleEvents.contains "networkidle" then f
  else { f with networkIdleTimer := some 500 }

/-- `Frame._stopNetworkIdleTimer`: cancels any scheduled timeout. -/
def FrameState.stopNetworkIdleTimer (f : FrameState) : FrameState :=
  { f with networkIdleTimer := none }

/-- `FrameManager._inflightRequestStarted(request)`: favicon requests are
ignored; otherwise the request joins `_inflightRequests` and, when the set
size becomes 1, the network-idle timer is stopped. -/
def FrameState.inflightRequestStarted (f : FrameState) (request : Request) : FrameState :=
  if request.isFavicon then f
  else
    let inflight :=
      if request ∈ f.inflightRequests then f.inflightRequests else f.inflightRequests ++ [request]
    let f := { f with inflightRequests := inflight }
    if inflight.length = 1 then f.stopNetworkIdleTimer else f

/-- `FrameManager._inflightRequestFinished(request)`: favicon requests and
requests not in `_inflightRequests` are ignored; otherwise the request is
removed and, when the set becomes empty, the network-idle timer is started. -/
def FrameState.inflightRequestFinished (f : FrameState) (request : Request) : FrameState :=
  if request.isFavicon then f
  else if request ∉ f.inflightRequests then f
  else
    let inflight := f.inflightRequests.filter (fun r => r ≠ request)
    let f := { f with inflightRequests := inflight }
    if inflight.length = 0 then f.startNetworkIdleTimer else f

/-- `FrameManager.clearFrameLifecycle(frame)`: clears the fired lifecycle
events, keeps only the in-flight requests of the committed document, stops the
network-idle timer and restarts it when the remaining set is empty. -/
def FrameState.clearFrameLifecycle (f : FrameState) : FrameState :=
  let f := { f with firedLifecycleEvents := [] }
  let f := { f with inflightRequests :=
              f.inflightRequests.filter (fun r => r.documentId == f.lastDocumentId) }
  let f := f.stopNetworkIdleTimer
  if f.inflightRequests.length = 0 then f.startNetworkIdleTimer else f

/-- The scheduled network-idle timeout elapses: the callback runs
`frameLifecycleEvent(id, 'networkidle')`, whose frame-local effect is to add
`networkidle` to the fired set when absent.  A timer that is not scheduled
cannot fire. -/
def FrameState.networkIdleTimerFired (f : FrameState) : FrameState :=
  match f.networkIdleTimer with
  | none => f
  | some _ =>
    let f := { f with networkIdleTimer := none }
    if f.firedLifecycleEvents.contains "networkidle" then f
    else { f with firedLifecycleEvents := "networkidle" :: f.firedLifecycleEvents }

/-- The frame-local effect of `FrameManager.frameLifecycleEvent(id, event)`
for a browser-reported event: add the event to the fired set when absent.
(The task notifications walking the ancestor chain are the manager-level
`frameLifecycleEvent` below; they do not touch the fields of this record
other than waiter promises.) -/
def FrameState.lifecycleEventFired (f : FrameState) (event : String) : FrameState :=
  if f.firedLifecycleEvents.contains event then f
  else { f with firedLifecycleEvents := event :: f.firedLifecycleEvents }

/-- The frame-local effect of
`FrameManager.frameCommittedNewDocumentNavigation`: set `url`, `name` and
`_lastDocumentId`, clear `_pendingDocumentId`, deliver `onNewDocument` to
every attached frame task, then `clearFrameLifecycle`. -/
def FrameState.commitNewDocument (f : FrameState) (url name documentId : String) : FrameState :=
  let f := { f with url := url, name := name, lastDocumentId := documentId,
                    pendingDocumentId := "" }
  let f := { f with frameTasks :=
              f.frameTasks.map (fun (t : FrameTask) => t.onNewDocument f.url documentId none) }
  f.clearFrameLifecycle

/-- `Frame._onDetached`: marks the frame detached, resolves `_detachedPromise`,
terminates every rerunnable task of both worlds with the frame-detached error,
and clears the parent pointer.  Notably it neither stops the network-idle
timer nor settles the slots' `contextPromise`s. -/
def FrameState.onDetached (f : FrameState) : FrameState :=
  let terminateAll := fun (d : ContextData) =>
    { d with rerunnableTasks :=
        d.rerunnableTasks.map (fun t => t.terminate "waitForFunction failed: frame got detached.") }
  { f with detached := true
           detachedPromise := f.detachedPromise.resolve ()
           mainWorld := terminateAll f.mainWorld
           utilityWorld := terminateAll f.utilityWorld
           parentId := none }

/-- The two execution-context worlds. -/
inductive WorldKind where
  | main
  | utility
deriving DecidableEq, Repr

/-- The slot of a world. -/
def FrameState.world (f : FrameState) : WorldKind → ContextData
  | .main => f.mainWorld
  | .utility => f.utilityWorld

/-- `Frame._context(contextType)`: fails on a detached frame with the
detached-frame error, otherwise returns the slot's current `contextPromise`. -/
def FrameState.context (f : FrameState) (world : WorldKind) : Except String (PromiseState Nat) :=
  if f.detached then
    .error ("Execution Context is not available in detached frame \"" ++ f.url ++
      "\" (are you trying to evaluate?)")
  else .ok (f.world world).contextPromise

/-- A `SignalBarrier`, reduced to its observables: the `_protectCount` and
whether the internal latch promise has settled (a promise settles at most
once; later invocations of its resolve callback are ignored). -/
structure SignalBarrier where
  protectCount : Int
  settled : Bool
deriving DecidableEq, Repr

/-- `SignalBarrier.retain`: increment `_protectCount`. -/
def SignalBarrier.retain (b : SignalBarrier) : SignalBarrier :=
  { b with protectCount := b.protectCount + 1 }

/-- `SignalBarrier.release`: decrement `_protectCount`; when it hits zero the
latch's resolve callback runs (a no-op if the latch already settled). -/
def SignalBarrier.release (b : SignalBarrier) : SignalBarrier :=
  let c := b.protectCount - 1
  if c = 0 then { protectCount := c, settled := true }
  else { b with protectCount := c }

/-- The `SignalBarrier` constructor: count starts at zero and the constructor
immediately self-retains. -/
def SignalBarrier.new : SignalBarrier :=
  SignalBarrier.retain { protectCount := 0, settled := false }

/-- One retain or release call delivered to a barrier. -/
inductive BarrierOp where
  | retain
  | release
deriving DecidableEq, Repr

/-- Apply one retain/release call. -/
def SignalBarrier.step (b : SignalBarrier) : BarrierOp → SignalBarrier
  | .retain => b.retain
  | .release => b.release

/-- Run an interleaving of retain/release calls against a barrier. -/
def SignalBarrier.run : SignalBarrier → List BarrierOp → SignalBarrier
  | b, [] => b
  | b, op :: ops => SignalBarrier.run (b.step op) ops

/-- The contribution of one call to `_protectCount`. -/
def BarrierOp.delta : BarrierOp → Int
  | .retain => 1
  | .release => -1

/-- The `_protectCount` after a sequence of calls, starting from a count. -/
def countFrom (c : Int) (ops : List BarrierOp) : Int :=
  match ops with
  | [] => c
  | op :: rest => countFrom (c + op.delta) rest

/-- The events the modelled manager handlers emit on the page event bus. -/
inductive PageEvent where
  | frameAttachedEvent (frameId : String)
  | frameDetachedEvent (frameId : String)
  | frameNavigatedEvent (frameId : String)
  | loadEvent
  | domcontentloadedEvent
deriving DecidableEq, Repr

/-- The `FrameManager` state: the frame map, the main-frame reference, the
active signal barriers, and the trace of page events emitted so far. -/
structure ManagerState where
  frames : List (String × FrameState)
  mainFrameId : Option String
  signalBarriers : List SignalBarrier
  emitted : List PageEvent

/-- Apply a function to the frame stored under an id (no-op when absent). -/
def ManagerState.updateFrame (m : ManagerState) (frameId : String)
    (g : FrameState → FrameState) : ManagerState :=
  { m with frames := m.frames.map (fun kv => if kv.1 = frameId then (kv.1, g kv.2) else kv) }

/-- Emit a page event. -/
def ManagerState.emit (m : ManagerState) (e : PageEvent) : ManagerState :=
  { m with emitted := m.emitted ++ [e] }

/-- The synchronous part of `SignalBarrier.addFrameNavigation(frame)`: the
barrier retains and registers a fresh `FrameTask` on the frame that waits for
any new-document or same-document navigation (the matching release happens
when one of the raced promises later settles). -/
def barrierNavigationTask : FrameTask :=
  { requestMap := []
    sameDocumentWaiter := some { urlMatch := none, promise := .pending }
    specificDocumentWaiter := none
    newDocumentWaiter := some { urlMatch := none, promise := .pending }
    lifecycleWaiter := none }

/-- `FrameManager.frameRequestedNavigation(frameId, documentId)`: unknown
frames are ignored; otherwise every active barrier is told about the
navigation and the frame's `_pendingDocumentId` is recorded. -/
def ManagerState.frameRequestedNavigation (m : ManagerState) (frameId documentId : String) :
    ManagerState :=
  match m.frames.lookup frameId with
  | none => m
  | some _ =>
    let m := { m with signalBarriers := m.signalBarriers.map SignalBarrier.retain }
    let m := m.updateFrame frameId
      (fun fr => { fr with frameTasks := fr.frameTasks ++ [barrierNavigationTask] })
    m.updateFrame frameId (fun fr => { fr with pendingDocumentId := documentId })

/-- `FrameManager.frameUpdatedDocumentIdForNavigation(frameId, documentId)`:
unknown frames are ignored; otherwise `_pendingDocumentId` is overwritten. -/
def ManagerState.frameUpdatedDocumentIdForNavigation (m : ManagerState)
    (frameId documentId : String) : ManagerState :=
  match m.frames.lookup frameId with
  | none => m
  | some _ => m.updateFrame frameId (fun fr => { fr with pendingDocumentId := documentId })

/-- `FrameManager.frameCommittedSameDocumentNavigation(frameId, url)`: unknown
frames are ignored; otherwise the URL is updated, every frame task is notified
`onSameDocument`, and `FrameNavigated` is emitted. -/
def ManagerState.frameCommittedSameDocumentNavigation (m : ManagerState)
    (frameId url : String) : ManagerState :=
  match m.frames.lookup frameId with
  | none => m
  | some _ =>
    let m := m.updateFrame frameId (fun fr =>
      let fr := { fr with url := url }
      { fr with frameTasks := fr.frameTasks.map (fun (t : FrameTask) => t.onSameDocument fr.url) })
    m.emit (.frameNavigatedEvent frameId)

/-- `FrameManager._removeFramesRecursively(frame)`: remove the child subtrees
first, then run `_onDetached` on the frame, drop it from the parent's child
set and from the frame map, and emit `FrameDetached`.  The recursion over the
frame tree is bounded by a fuel argument (instantiated with the map size, an
upper bound for the depth of any well-formed forest). -/
def ManagerState.removeFramesRecursively (fuel : Nat) (m : ManagerState) (frameId : String) :
    ManagerState :=
  match fuel with
  | 0 => m
  | fuel + 1 =>
    match m.frames.lookup frameId with
    | none => m
    | some f =>
      let m := f.childIds.foldl
        (fun acc c => ManagerState.removeFramesRecursively fuel acc c) m
      let parentOf := (m.frames.lookup frameId).bind (fun fr => fr.parentId)
      let m := m.updateFrame frameId FrameState.onDetached
      let m :=
        match parentOf with
        | some p => m.updateFrame p
            (fun pf => { pf with childIds := pf.childIds.filter (fun c => c ≠ frameId) })
        | none => m
      let m := { m with frames := m.frames.filter (fun kv => kv.1 ≠ frameId) }
      m.emit (.frameDetachedEvent frameId)

/-- `FrameManager.frameDetached(frameId)`: unknown frames are ignored;
otherwise the subtree is removed recursively. -/
def ManagerState.frameDetached (m : ManagerState) (frameId : String) : ManagerState :=
  match m.frames.lookup frameId with
  | none => m
  | some _ => ManagerState.removeFramesRecursively m.frames.length m frameId

/-- `_checkLifecycleRecursively` read over the manager's frame map (the
structural `checkLifecycleRecursively` above is the same recursion over a
materialized subtree).  A dangling child id — unreachable in well-formed
states — imposes no constraint. -/
def ManagerState.checkLifecycleOverMap (fuel : Nat) (m : ManagerState)
    (frameId waitUntil : String) : Bool :=
  match fuel with
  | 0 => false
  | fuel + 1 =>
    match m.frames.lookup frameId with
    | none => true
    | some f =>
      f.firedLifecycleEvents.contains waitUntil &&
        f.childIds.all (fun c => ManagerState.checkLifecycleOverMap fuel m c waitUntil)

/-- The ancestor chain of a frame, from the frame itself up to the root
(bounded by fuel; the map size bounds the chain in well-formed states). -/
def ManagerState.ancestorChain (fuel : Nat) (m : ManagerState) (frameId : String) :
    List String :=
  match fuel with
  | 0 => []
  | fuel + 1 =>
    match m.frames.lookup frameId with
    | none => []
    | some f =>
      frameId ::
        (match f.parentId with
         | none => []
         | some p => ManagerState.ancestorChain fuel m p)

/-- `FrameManager._notifyLifecycle(frame, event)`: walk from the frame up to
the root; each ancestor's frame tasks recompute the subtree predicate for
their own frame and resolve their lifecycle waiter when it holds. -/
def ManagerState.notifyLifecycle (fuel : Nat) (m : ManagerState) (frameId : String) :
    ManagerState :=
  (ManagerState.ancestorChain fuel m frameId).foldl
    (fun acc a =>
      acc.updateFrame a (fun fr =>
        { fr with frameTasks := fr.frameTasks.map (fun (t : FrameTask) =>
            match t.lifecycleWaiter with
            | some w =>
              if ManagerState.checkLifecycleOverMap fuel acc a w.waitUntil then
                { t with lifecycleWaiter := some { w with promise := w.promise.resolve () } }
              else t
            | none => t) }))
    m

/-- `FrameManager.frameLifecycleEvent(frameId, event)`: unknown frames are
ignored, as are already-fired events; otherwise the event joins the fired set,
ancestors' frame tasks are notified, and `Load` / `DOMContentLoaded` are
emitted when the frame is the main frame. -/
def ManagerState.frameLifecycleEvent (m : ManagerState) (frameId event : String) :
    ManagerState :=
  match m.frames.lookup frameId with
  | none => m
  | some f =>
    if f.firedLifecycleEvents.contains event then m
    else
      let m := m.updateFrame frameId (fun fr =>
        { fr with firedLifecycleEvents := event :: fr.firedLifecycleEvents })
      let m := ManagerState.notifyLifecycle m.frames.length m frameId
      let m := if m.mainFrameId = some frameId ∧ event = "load" then m.emit .loadEvent else m
      if m.mainFrameId = some frameId ∧ event = "domcontentloaded" then
        m.emit .domcontentloadedEvent
      else m

/-- `FrameManager.frameStoppedLoading(frameId)`: fires `domcontentloaded` and
then `load`. -/
def ManagerState.frameStoppedLoading (m : ManagerState) (frameId : String) : ManagerState :=
  (m.frameLifecycleEvent frameId "domcontentloaded").frameLifecycleEvent frameId "load"

/-- `FrameManager.frameCommittedNewDocumentNavigation(frameId, url, name,
documentId, initial)`: the source dereferences the frame map entry without a
guard (`this._frames.get(frameId)!`), so the handler is not total — `none`
models the crash on an unknown id.  Otherwise the child subtrees are removed,
the frame commits the new document, and `FrameNavigated` is emitted unless the
navigation is the initial one. -/
def ManagerState.frameCommittedNewDocumentNavigation (m : ManagerState)
    (frameId url name documentId : String) (initial : Bool) : Option ManagerState :=
  match m.frames.lookup frameId with
  | none => none
  | some f =>
    let m := f.childIds.foldl
      (fun acc c => ManagerState.removeFramesRecursively acc.frames.length acc c) m
    let m := m.updateFrame frameId (fun fr => fr.commitNewDocument url name documentId)
    some (if initial then m else m.emit (.frameNavigatedEvent frameId))

/-- The events that touch a frame's network-idle bookkeeping
(`requestFailed` performs the same in-flight bookkeeping as
`requestFinished`). -/
inductive FrameNetEvent where
  | requestStarted (request : Request)
  | requestFinished (request : Request)
  | commitNewDocument (url name documentId : String)
  | networkIdleTimerElapsed
  | browserLifecycleEvent (event : String)

/-- One step of the per-frame network-idle machine. -/
def FrameState.netStep (f : FrameState) : FrameNetEvent → FrameState
  | .requestStarted r => f.inflightRequestStarted r
  | .requestFinished r => f.inflightRequestFinished r
  | .commitNewDocument u n d => f.commitNewDocument u n d
  | .networkIdleTimerElapsed => f.networkIdleTimerFired
  | .browserLifecycleEvent e => f.lifecycleEventFired e

/-- The spec's network-idle invariant: the timer is scheduled iff
`_inflightRequests` is empty and `networkidle` has not fired. -/
def NetworkIdleTimerInvariant (f : FrameState) : Prop :=
  f.networkIdleTimer ≠ none ↔
    (f.inflightRequests = [] ∧ "networkidle" ∉ f.firedLifecycleEvents)

instance (f : FrameState) : Decidable (NetworkIdleTimerInvariant f) := by
  unfold NetworkIdleTimerInvariant
  infer_instance

/-- A concrete `FrameTask` with a registered specific-document waiter for
document `D1` (the state after `waitForSpecificDocument("D1")`). -/
def exampleSpecificTask : FrameTask :=
  { FrameTask.initial with specificDocumentWaiter := some ⟨"D1", PromiseState.pending⟩ }

/-- A concrete frame whose network-idle timer is scheduled. -/
def exampleTimerFrame : FrameState :=
  { FrameState.mkFrame "frame1" none with networkIdleTimer := some 500 }

/-- A concrete manager with an empty frame map. -/
def emptyManager : ManagerState :=
  { frames := [], mainFrameId := none, signalBarriers := [], emitted := [] }

/-! ## Helper lemmas -/

/-- Resolving a pending promise yields the resolved state. -/
theorem PromiseState.resolve_pending {α : Type} (v : α) :
    (PromiseState.pending).resolve v = .resolved v := rfl

/-- Rejecting a pending promise yields the rejected state. -/
theorem PromiseState.reject_pending {α : Type} (e : String) :
    (PromiseState.pending (α := α)).reject e = .rejected e := rfl

/-- The forest leg of `_checkLifecycleRecursively` agrees with `List.all`. -/
theorem checkLifecycleForest_eq_all (cs : List FrameTree) (w : String) :
    checkLifecycleForest cs w = cs.all (fun c => checkLifecycleRecursively c w) := by
  induction cs with
  | nil => rfl
  | cons c rest ih => simp [checkLifecycleForest, ih]

mutual

/-- `_checkLifecycleRecursively` holds exactly when every frame of the subtree
has the event in its fired set. -/
theorem check_eq_subtree_all (t : FrameTree) (w : String) :
    checkLifecycleRecursively t w = (subtreeNodes t).all (fun n => n.fired.contains w) := by
  match t with
  | .node fired children =>
    simp only [checkLifecycleRecursively, subtreeNodes, List.all_cons, FrameTree.fired,
      checkForest_eq_subtree_all children w]

/-- Forest version of `check_eq_subtree_all`. -/
theorem checkForest_eq_subtree_all (cs : List FrameTree) (w : String) :
    checkLifecycleForest cs w = (subtreeForest cs).all (fun n => n.fired.contains w) := by
  match cs with
  | [] => rfl
  | c :: rest =>
    simp only [checkLifecycleForest, subtreeForest, List.all_append,
      check_eq_subtree_all c w, checkForest_eq_subtree_all rest w]

end

/-! ## Claim C1 -/

/-- How one `onNewDocument` delivery transforms the specific-document waiter
(the any-new-document phase of the handler never touches it). -/
theorem onNewDocument_specific (t : FrameTask) (url documentId : String)
    (error : Option String) :
    (t.onNewDocument url documentId error).specificDocumentWaiter =
      match t.specificDocumentWaiter with
      | none => none
      | some w =>
        if documentId = w.expectedDocumentId then
          match error with
          | some e => some { w with promise := w.promise.reject e }
          | none => some { w with promise := w.promise.resolve () }
        else if error.isNone then
          some { w with promise := w.promise.reject "Navigation interrupted by another one" }
        else some w := by
  rcases t with ⟨rm, sd, spd, nd, lw⟩
  unfold FrameTask.onNewDocument
  cases spd with
  | none =>
    cases nd with
    | none => cases error <;> rfl
    | some w2 =>
      cases error with
      | some e => rfl
      | none => by_cases hm : urlMatches url w2.urlMatch <;> simp [hm]
  | some w =>
    by_cases hid : documentId = w.expectedDocumentId
    · cases error with
      | some e =>
        cases nd with
        | none => simp [hid]
        | some w2 => simp [hid]
      | none =>
        cases nd with
        | none => simp [hid]
        | some w2 => by_cases hm : urlMatches url w2.urlMatch <;> simp [hid, hm]
    · cases error with
      | some e =>
        cases nd with
        | none => simp [hid]
        | some w2 => simp [hid]
      | none =>
        cases nd with
        | none => simp [hid]
        | some w2 => by_cases hm : urlMatches url w2.urlMatch <;> simp [hid, hm]

/-- Claim C1 (counterexample): `waitForSpecificDocument("D1")` registers a
pending waiter, but delivering `onNewDocument("D2", error)` — a different
document id that carries an error — leaves the promise pending: it is not
rejected with "Navigation interrupted by another one" (nor settled at all),
contradicting the claim that the promise rejects whenever a different
document id is delivered first. -/
theorem C1_interrupted_counterexample :
    FrameTask.initial.waitForSpecificDocument "D1" = some exampleSpecificTask ∧
    (exampleSpecificTask.onNewDocument "https://a/" "D2"
        (some "net::ERR_FAILED")).specificDocumentWaiter =
      some ⟨"D1", PromiseState.pending⟩ := by
  exact ⟨rfl, rfl⟩

/-- Claim C1 (amended): after `waitForSpecificDocument(expectedId)` registers
its pending waiter, a delivered `onNewDocument(documentId, error?)` settles
that waiter as follows: it resolves on `expectedId` without an error; it
rejects with the error on `expectedId` with an error; it rejects with
"Navigation interrupted by another one" on a different id delivered without
an error; and on a different id delivered with an error it stays pending (so
the promise is not settled until some later notification, and it never
settles if none arrives). -/
theorem C1_specific_document_settlement :
    (∀ (t : FrameTask) (expectedId : String), t.specificDocumentWaiter = none →
        t.waitForSpecificDocument expectedId =
          some { t with specificDocumentWaiter := some ⟨expectedId, .pending⟩ }) ∧
    (∀ (t : FrameTask) (w : SpecificDocumentWaiter) (url documentId : String)
        (error : Option String),
        t.specificDocumentWaiter = some w → w.promise = .pending →
        (t.onNewDocument url documentId error).specificDocumentWaiter.map
            (fun x => x.promise) =
          some (if documentId = w.expectedDocumentId then
                  match error with
                  | some e => PromiseState.rejected e
                  | none => PromiseState.resolved ()
                else
                  match error with
                  | some _ => PromiseState.pending
                  | none => PromiseState.rejected "Navigation interrupted by another one")) := by
  constructor
  · intro t expectedId h
    simp [FrameTask.waitForSpecificDocument, h]
  · intro t w url documentId error hw hp
    have h := onNewDocument_specific t url documentId error
    rw [hw] at h
    rw [h]
    by_cases hid : documentId = w.expectedDocumentId <;>
      cases error <;> simp [hid, hp, PromiseState.reject, PromiseState.resolve]

/-- Claim C1 (witness): the amended theorem applied at concrete inputs — the
registered waiter for `D1` resolves when `D1` commits without an error. -/
theorem C1_specific_document_witness :
    (exampleSpecificTask.onNewDocument "https://a/" "D1" none).specificDocumentWaiter.map
        (fun x => x.promise) = some (PromiseState.resolved ()) := by
  have h := C1_specific_document_settlement.2 exampleSpecificTask
    ⟨"D1", PromiseState.pending⟩ "https://a/" "D1" none rfl rfl
  simpa using h

/-! ## Claim C2 -/

/-- Claim C2: `waitForLifecycle` first maps the legacy `networkidle0` to
`networkidle` and throws a caller error for any value outside
`{domcontentloaded, load, networkidle}`; under a valid value its promise is
resolved immediately when every frame of the subtree rooted at the task's
frame already has the event in its fired set, and otherwise a pending waiter
is registered which resolves upon any later lifecycle notification exactly
when the recomputed subtree predicate holds; the subtree predicate is
equivalent to the event having fired on the frame itself and, recursively, on
every descendant frame. -/
theorem C2_waitForLifecycle_subtree :
    (∀ (t : FrameTask) (tree : FrameTree),
        t.waitForLifecycle tree "networkidle0" = t.waitForLifecycle tree "networkidle") ∧
    (∀ (t : FrameTask) (tree : FrameTree) (e : String),
        e ≠ "networkidle0" → e ∉ kLifecycleEvents →
        t.waitForLifecycle tree e = some (.error ("Unsupported waitUntil option " ++ e))) ∧
    (∀ (t : FrameTask) (tree : FrameTree) (e : String),
        e ∈ kLifecycleEvents →
        checkLifecycleRecursively tree e = true →
        t.waitForLifecycle tree e = some (.ok (.resolvedNow t))) ∧
    (∀ (t : FrameTask) (tree : FrameTree) (e : String),
        e ∈ kLifecycleEvents →
        checkLifecycleRecursively tree e = false →
        t.lifecycleWaiter = none →
        t.waitForLifecycle tree e =
          some (.ok (.registered { t with lifecycleWaiter := some ⟨e, .pending⟩ }))) ∧
    (∀ (t : FrameTask) (tree : FrameTree) (w : LifecycleWaiter),
        t.lifecycleWaiter = some w →
        (t.onLifecycle tree).lifecycleWaiter =
          some (if checkLifecycleRecursively tree w.waitUntil then
                  { w with promise := w.promise.resolve () }
                else w)) ∧
    (∀ (tree : FrameTree) (e : String),
        checkLifecycleRecursively tree e = true ↔
          ∀ n ∈ subtreeNodes tree, n.fired.contains e = true) := by
  refine ⟨?_, ?_, ?_, ?_, ?_, ?_⟩
  · intro t tree
    simp [FrameTask.waitForLifecycle]
  · intro t tree e hne hmem
    simp [FrameTask.waitForLifecycle, hne, hmem]
  · intro t tree e hmem hcheck
    have hne : e ≠ "networkidle0" := by
      intro he
      subst he
      simp [kLifecycleEvents] at hmem
    simp [FrameTask.waitForLifecycle, hne, hmem, hcheck]
  · intro t tree e hmem hcheck hwaiter
    have hne : e ≠ "networkidle0" := by
      intro he
      subst he
      simp [kLifecycleEvents] at hmem
    simp [FrameTask.waitForLifecycle, hne, hmem, hcheck, hwaiter]
  · intro t tree w hw
    unfold FrameTask.onLifecycle
    rw [hw]
    by_cases hc : checkLifecycleRecursively tree w.waitUntil <;> simp [hc, hw]
  · intro tree e
    rw [check_eq_subtree_all]
    simp [List.all_eq_true]

/-- Claim C2 (witness): the theorem applied at concrete inputs — the alias at
a one-node tree, the caller error for "foo", the immediate resolution when
`load` fired on the lone frame, the registration when it has not, and the
waiter resolving once notified on a tree whose two frames both fired `load`. -/
theorem C2_waitForLifecycle_witness :
    FrameTask.initial.waitForLifecycle (.node [] []) "networkidle0" =
      FrameTask.initial.waitForLifecycle (.node [] []) "networkidle" ∧
    FrameTask.initial.waitForLifecycle (.node [] []) "foo" =
      some (.error "Unsupported waitUntil option foo") ∧
    FrameTask.initial.waitForLifecycle (.node ["load"] []) "load" =
      some (.ok (.resolvedNow FrameTask.initial)) ∧
    FrameTask.initial.waitForLifecycle (.node [] []) "load" =
      some (.ok (.registered
        { FrameTask.initial with lifecycleWaiter := some ⟨"load", .pending⟩ })) ∧
    (({ FrameTask.initial with lifecycleWaiter := some ⟨"load", .pending⟩ } :
        FrameTask).onLifecycle (.node ["load"] [.node ["load", "domcontentloaded"] []])).lifecycleWaiter =
      some ⟨"load", .resolved ()⟩ := by
  obtain ⟨h1, h2, h3, h4, h5, _⟩ := C2_waitForLifecycle_subtree
  refine ⟨h1 FrameTask.initial (.node [] []), ?_, ?_, ?_, ?_⟩
  · simpa using h2 FrameTask.initial (.node [] []) "foo" (by decide) (by decide)
  · exact h3 FrameTask.initial (.node ["load"] []) "load" (by decide) (by decide)
  · exact h4 FrameTask.initial (.node [] []) "load" (by decide) (by decide) rfl
  · have h := h5 ({ FrameTask.initial with lifecycleWaiter := some ⟨"load", .pending⟩ })
      (.node ["load"] [.node ["load", "domcontentloaded"] []]) ⟨"load", .pending⟩ rfl
    simpa [checkLifecycleRecursively, checkLifecycleForest, PromiseState.resolve] using h

/-! ## Claim C3 -/

/-- Claim C3: a rerun attempt failing with a message that contains
"Execution context was destroyed" or "Cannot find context with specified id"
leaves the task's external promise untouched (in particular a pending promise
stays pending, so a later context can rerun the task); a failure with any
other message rejects the external promise with it; and on frame detach every
rerunnable task of both worlds is terminated, rejecting its pending external
promise with "waitForFunction failed: frame got detached.". -/
theorem C3_rerun_error_filter :
    (∀ (t : RerunnableTask) (m : String),
        strContains m "Execution context was destroyed" = true ∨
        strContains m "Cannot find context with specified id" = true →
        t.rerunSettled (.failure m) = t) ∧
    (∀ (t : RerunnableTask) (m : String),
        strContains m "Execution context was destroyed" = false →
        strContains m "Cannot find context with specified id" = false →
        t.promise = .pending →
        (t.rerunSettled (.failure m)).promise = .rejected m) ∧
    (∀ (f : FrameState),
        (f.onDetached).mainWorld.rerunnableTasks =
          f.mainWorld.rerunnableTasks.map
            (fun t => t.terminate "waitForFunction failed: frame got detached.") ∧
        (f.onDetached).utilityWorld.rerunnableTasks =
          f.utilityWorld.rerunnableTasks.map
            (fun t => t.terminate "waitForFunction failed: frame got detached.")) ∧
    (∀ (t : RerunnableTask), t.promise = .pending →
        (t.terminate "waitForFunction failed: frame got detached.").promise =
          .rejected "waitForFunction failed: frame got detached.") := by
  refine ⟨?_, ?_, ?_, ?_⟩
  · intro t m h
    rcases h with h | h <;> simp [RerunnableTask.rerunSettled, h]
  · intro t m h1 h2 hp
    simp [RerunnableTask.rerunSettled, h1, h2, hp, PromiseState.reject]
  · intro f
    exact ⟨rfl, rfl⟩
  · intro t hp
    simp [RerunnableTask.terminate, hp, PromiseState.reject]

/-- Claim C3 (witness): the theorem applied at concrete inputs — the two
swallowed messages leave a pending task pending, a plain evaluation error
rejects it, and detach-termination rejects it with the frame-detached error. -/
theorem C3_rerun_error_filter_witness :
    (RerunnableTask.rerunSettled ⟨.pending⟩
        (.failure "Protocol error: Execution context was destroyed")) = ⟨.pending⟩ ∧
    (RerunnableTask.rerunSettled ⟨.pending⟩
        (.failure "Cannot find context with specified id: 7")) = ⟨.pending⟩ ∧
    (RerunnableTask.rerunSettled ⟨.pending⟩
        (.failure "ReferenceError: x is not defined")).promise =
      .rejected "ReferenceError: x is not defined" ∧
    (RerunnableTask.terminate ⟨.pending⟩
        "waitForFunction failed: frame got detached.").promise =
      .rejected "waitForFunction failed: frame got detached." := by
  refine ⟨?_, ?_, ?_, ?_⟩
  · exact C3_rerun_error_filter.1 ⟨.pending⟩ _ (Or.inl (by decide))
  · exact C3_rerun_error_filter.1 ⟨.pending⟩ _ (Or.inr (by decide))
  · exact C3_rerun_error_filter.2.1 ⟨.pending⟩ _ (by decide) (by decide) rfl
  · exact C3_rerun_error_filter.2.2.2 ⟨.pending⟩ rfl

/-! ## Claim C4 -/

/-- Claim C4 (counterexample): a freshly constructed frame has an empty
`_inflightRequests` set and no `networkidle` in `_firedLifecycleEvents`, yet
its network-idle timer is not running — the constructor never starts it — so
the claimed iff (and its "empty implies timer active or fired" consequence)
fails before the first commit. -/
theorem C4_fresh_frame_counterexample :
    ¬ NetworkIdleTimerInvariant (FrameState.mkFrame "frame1" none) ∧
    (FrameState.mkFrame "frame1" none).inflightRequests = [] ∧
    (FrameState.mkFrame "frame1" none).networkIdleTimer = none ∧
    "networkidle" ∉ (FrameState.mkFrame "frame1" none).firedLifecycleEvents := by
  refine ⟨?_, rfl, rfl, ?_⟩
  · intro h
    have := h.mpr ⟨rfl, by simp [FrameState.mkFrame]⟩
    simp [FrameState.mkFrame] at this
  · simp [FrameState.mkFrame]

/-- `clearFrameLifecycle` always leaves a frame satisfying the network-idle
invariant: the fired set is cleared and the timer is restarted exactly when
the filtered in-flight set is empty. -/
theorem clearFrameLifecycle_invariant (f : FrameState) :
    NetworkIdleTimerInvariant f.clearFrameLifecycle := by
  unfold FrameState.clearFrameLifecycle NetworkIdleTimerInvariant
  unfold FrameState.stopNetworkIdleTimer FrameState.startNetworkIdleTimer
  by_cases h :
      (f.inflightRequests.filter (fun r => r.documentId == f.lastDocumentId)).length = 0
  · have he : f.inflightRequests.filter (fun r => r.documentId == f.lastDocumentId) = [] :=
      List.length_eq_zero.mp h
    simp [h, he]
  · have he : f.inflightRequests.filter (fun r => r.documentId == f.lastDocumentId) ≠ [] := by
      intro he
      exact h (by simp [he])
    simp [h, he]

/-- Every new-document commit re-establishes the network-idle invariant. -/
theorem commitNewDocument_invariant (f : FrameState) (url name documentId : String) :
    NetworkIdleTimerInvariant (f.commitNewDocument url name documentId) := by
  unfold FrameState.commitNewDocument
  exact clearFrameLifecycle_invariant _

/-- A frame whose invariant holds and whose in-flight set is non-empty has a
stopped timer. -/
theorem timer_none_of_inflight_ne_nil (f : FrameState)
    (hinv : NetworkIdleTimerInvariant f) (hne : f.inflightRequests ≠ []) :
    f.networkIdleTimer = none := by
  by_contra h
  exact hne (hinv.mp h).1

/-- Claim C4 (amended): the iff "network-idle timer running ⟺ in-flight
requests empty and networkidle unfired" is established by every new-document
commit and preserved by every subsequent frame event (request bookkeeping,
further commits, the timer elapsing, and browser-reported lifecycle events —
`networkidle` itself is only ever declared by the timer callback).  It does
not hold on a freshly constructed frame, where the timer is not yet running. -/
theorem C4_networkidle_invariant :
    (∀ (f : FrameState) (url name documentId : String),
        NetworkIdleTimerInvariant (f.commitNewDocument url name documentId)) ∧
    (∀ (f : FrameState) (ev : FrameNetEvent),
        NetworkIdleTimerInvariant f →
        (∀ e, ev = .browserLifecycleEvent e → e ≠ "networkidle") →
        NetworkIdleTimerInvariant (f.netStep ev)) := by
  refine ⟨commitNewDocument_invariant, ?_⟩
  intro f ev hinv hev
  cases ev with
  | commitNewDocument u n d => exact commitNewDocument_invariant f u n d
  | requestStarted r =>
    show NetworkIdleTimerInvariant (f.inflightRequestStarted r)
    unfold FrameState.inflightRequestStarted
    by_cases hf : r.isFavicon
    · simpa [hf] using hinv
    · simp only [hf, Bool.false_eq_true, if_false]
      by_cases hmem : r ∈ f.inflightRequests
      · have hne : f.inflightRequests ≠ [] := by
          intro h
          rw [h] at hmem
          simp at hmem
        have htimer := timer_none_of_inflight_ne_nil f hinv hne
        by_cases hlen : f.inflightRequests.length = 1 <;>
          simp [hmem, hlen, NetworkIdleTimerInvariant, FrameState.stopNetworkIdleTimer,
            htimer, hne]
      · have hne2 : f.inflightRequests ++ [r] ≠ [] := by simp
        by_cases hlen : (f.inflightRequests ++ [r]).length = 1
        · simp [hmem, hlen, NetworkIdleTimerInvariant, FrameState.stopNetworkIdleTimer, hne2]
        · have hne : f.inflightRequests ≠ [] := by
            intro h
            rw [h] at hlen
            simp at hlen
          have htimer := timer_none_of_inflight_ne_nil f hinv hne
          simp [hmem, hlen, NetworkIdleTimerInvariant, FrameState.stopNetworkIdleTimer,
            htimer, hne, hne2]
  | requestFinished r =>
    show NetworkIdleTimerInvariant (f.inflightRequestFinished r)
    unfold FrameState.inflightRequestFinished
    by_cases hf : r.isFavicon
    · simpa [hf] using hinv
    · by_cases hmem : r ∈ f.inflightRequests
      · have hne : f.inflightRequests ≠ [] := by
          intro h
          rw [h] at hmem
          simp at hmem
        have htimer := timer_none_of_inflight_ne_nil f hinv hne
        rw [if_neg (by simp [hf]), if_neg (by simp [hmem])]
        by_cases hlen : (f.inflightRequests.filter (fun x => x ≠ r)).length = 0
        · have he : f.inflightRequests.filter (fun x => x ≠ r) = [] :=
            List.length_eq_zero.mp hlen
          have hall : ∀ a ∈ f.inflightRequests, a = r := by
            intro a ha
            by_contra har
            have hmf : a ∈ f.inflightRequests.filter (fun x => x ≠ r) :=
              List.mem_filter.mpr ⟨ha, by simp [har]⟩
            rw [he] at hmf
            simp at hmf
          rw [if_pos hlen]
          unfold FrameState.startNetworkIdleTimer
          by_cases hfired : "networkidle" ∈ f.firedLifecycleEvents <;>
            simp [NetworkIdleTimerInvariant, he, hfired, htimer, hall]
          all_goals exact hall
        · have hall : ¬ ∀ a ∈ f.inflightRequests, a = r := by
            intro hall
            apply hlen
            have he : f.inflightRequests.filter (fun x => x ≠ r) = [] := by
              rw [List.filter_eq_nil_iff]
              intro a ha
              simp [hall a ha]
            rw [he]
            rfl
          rw [if_neg hlen]
          simp [NetworkIdleTimerInvariant, htimer, hall]
      · simpa [hf, hmem] using hinv
  | networkIdleTimerElapsed =>
    show NetworkIdleTimerInvariant f.networkIdleTimerFired
    unfold FrameState.networkIdleTimerFired
    cases ht : f.networkIdleTimer with
    | none => simpa [ht] using hinv
    | some d =>
      have hrhs := hinv.mp (by simp [ht])
      simp [NetworkIdleTimerInvariant, hrhs.2, hrhs.1]
  | browserLifecycleEvent e =>
    show NetworkIdleTimerInvariant (f.lifecycleEventFired e)
    have hne : e ≠ "networkidle" := hev e rfl
    unfold FrameState.lifecycleEventFired
    by_cases hc : e ∈ f.firedLifecycleEvents
    · simpa [hc] using hinv
    · unfold NetworkIdleTimerInvariant at hinv ⊢
      rw [if_neg (by simpa using hc)]
      simp only [List.mem_cons]
      constructor
      · intro h
        have := hinv.mp h
        exact ⟨this.1, by
          intro hmem
          rcases hmem with hmem | hmem
          · exact hne hmem.symm
          · exact this.2 hmem⟩
      · intro h
        exact hinv.mpr ⟨h.1, fun hmem => h.2 (Or.inr hmem)⟩

/-- Claim C4 (witness): the amended theorem applied at concrete inputs — a
commit on a fresh frame establishes the invariant, and a subsequent
request-started event preserves it. -/
theorem C4_networkidle_invariant_witness :
    NetworkIdleTimerInvariant
      ((FrameState.mkFrame "frame1" none).commitNewDocument "https://a/" "" "D1") ∧
    NetworkIdleTimerInvariant
      (((FrameState.mkFrame "frame1" none).commitNewDocument "https://a/" "" "D1").netStep
        (.requestStarted ⟨"frame1", "", false, false⟩)) := by
  constructor
  · exact C4_networkidle_invariant.1 (FrameState.mkFrame "frame1" none) "https://a/" "" "D1"
  · exact C4_networkidle_invariant.2 _ (.requestStarted ⟨"frame1", "", false, false⟩)
      (C4_networkidle_invariant.1 (FrameState.mkFrame "frame1" none) "https://a/" "" "D1")
      (fun e h => by cases h)

/-! ## Claim C5 -/

/-- Claim C5 (counterexample): committing a new document on a fresh frame —
whose `_inflightRequests` set is empty before and after the commit, so no
transition to empty occurs — nevertheless starts a 500 ms network-idle timer
(`clearFrameLifecycle` stops and then restarts it), contradicting "started
exactly when inflightRequests transitions to empty". -/
theorem C5_commit_start_counterexample :
    (FrameState.mkFrame "frame1" none).inflightRequests = [] ∧
    (FrameState.mkFrame "frame1" none).networkIdleTimer = none ∧
    ((FrameState.mkFrame "frame1" none).commitNewDocument
        "https://a/" "" "D1").inflightRequests = [] ∧
    ((FrameState.mkFrame "frame1" none).commitNewDocument
        "https://a/" "" "D1").networkIdleTimer = some 500 := by
  exact ⟨rfl, rfl, rfl, rfl⟩

/-- Claim C5 (amended): the network-idle timer is started with duration 500 ms
when a finishing (non-favicon, tracked) request empties `_inflightRequests`
while `networkidle` has not fired — and, additionally, on a new-document
commit whose post-filter in-flight set is empty; when the scheduled timer
fires it declares `networkidle` on the frame; it is stopped when a non-favicon
request starts on an empty in-flight set (and `requestStarted` never starts
a timer), and every new-document commit discards the previously scheduled
timer. -/
theorem C5_timer_start_stop :
    (∀ (f : FrameState) (r : Request),
        r.isFavicon = false → r ∈ f.inflightRequests →
        f.inflightRequests.filter (fun x => x ≠ r) = [] →
        "networkidle" ∉ f.firedLifecycleEvents →
        (f.inflightRequestFinished r).networkIdleTimer = some 500) ∧
    (∀ (f : FrameState) (r : Request),
        r.isFavicon = false → r ∈ f.inflightRequests →
        f.inflightRequests.filter (fun x => x ≠ r) = [] →
        "networkidle" ∈ f.firedLifecycleEvents →
        (f.inflightRequestFinished r).networkIdleTimer = f.networkIdleTimer) ∧
    (∀ (f : FrameState) (r : Request),
        r.isFavicon = true ∨ r ∉ f.inflightRequests ∨
          f.inflightRequests.filter (fun x => x ≠ r) ≠ [] →
        (f.inflightRequestFinished r).networkIdleTimer = f.networkIdleTimer) ∧
    (∀ (f : FrameState) (d : Nat), f.networkIdleTimer = some d →
        (f.networkIdleTimerFired).networkIdleTimer = none ∧
        "networkidle" ∈ (f.networkIdleTimerFired).firedLifecycleEvents) ∧
    (∀ (f : FrameState) (r : Request),
        r.isFavicon = false → f.inflightRequests = [] →
        (f.inflightRequestStarted r).networkIdleTimer = none) ∧
    (∀ (f : FrameState) (r : Request),
        (f.inflightRequestStarted r).networkIdleTimer = none ∨
        (f.inflightRequestStarted r).networkIdleTimer = f.networkIdleTimer) ∧
    (∀ (f : FrameState) (url name documentId : String),
        (f.commitNewDocument url name documentId).networkIdleTimer =
          (if f.inflightRequests.filter (fun r => r.documentId == documentId) = []
           then some 500 else none)) := by
  refine ⟨?_, ?_, ?_, ?_, ?_, ?_, ?_⟩
  · intro f r hf hmem he hfired
    unfold FrameState.inflightRequestFinished
    rw [if_neg (by simp [hf]), if_neg (by simp [hmem]), if_pos (by rw [he]; rfl)]
    unfold FrameState.startNetworkIdleTimer
    rw [if_neg (by simpa using hfired)]
  · intro f r hf hmem he hfired
    unfold FrameState.inflightRequestFinished
    rw [if_neg (by simp [hf]), if_neg (by simp [hmem]), if_pos (by rw [he]; rfl)]
    unfold FrameState.startNetworkIdleTimer
    rw [if_pos (by simpa using hfired)]
  · intro f r h
    unfold FrameState.inflightRequestFinished
    rcases h with h | h | h
    · rw [if_pos (by simp [h])]
    · by_cases hf : r.isFavicon
      · rw [if_pos (by simp [hf])]
      · rw [if_neg (by simp [hf]), if_pos (by simpa using h)]
    · have hlen : ¬ (f.inflightRequests.filter (fun x => x ≠ r)).length = 0 := by
        intro hlen
        exact h (List.length_eq_zero.mp hlen)
      by_cases hf : r.isFavicon
      · rw [if_pos (by simp [hf])]
      · by_cases hmem : r ∈ f.inflightRequests
        · rw [if_neg (by simp [hf]), if_neg (by simp [hmem]), if_neg hlen]
        · rw [if_neg (by simp [hf]), if_pos (by simpa using hmem)]
  · intro f d ht
    unfold FrameState.networkIdleTimerFired
    rw [ht]
    by_cases hfired : "networkidle" ∈ f.firedLifecycleEvents <;> simp [hfired]
  · intro f r hf he
    unfold FrameState.inflightRequestStarted
    simp [hf, he, FrameState.stopNetworkIdleTimer]
  · intro f r
    unfold FrameState.inflightRequestStarted
    by_cases hf : r.isFavicon
    · right
      rw [if_pos (by simp [hf])]
    · rw [if_neg (by simp [hf])]
      by_cases hmem : r ∈ f.inflightRequests
      · rw [if_pos hmem]
        by_cases hlen : f.inflightRequests.length = 1
        · left
          rw [if_pos hlen]
          rfl
        · right
          rw [if_neg hlen]
      · rw [if_neg hmem]
        by_cases he2 : f.inflightRequests = []
        · left
          rw [if_pos (by rw [he2]; rfl)]
          rfl
        · right
          rw [if_neg (by
            simp only [List.length_append, List.length_cons, List.length_nil]
            intro hlen
            exact he2 (List.length_eq_zero.mp (by omega)))]
  · intro f url name documentId
    unfold FrameState.commitNewDocument FrameState.clearFrameLifecycle
    unfold FrameState.stopNetworkIdleTimer FrameState.startNetworkIdleTimer
    by_cases he : f.inflightRequests.filter (fun r => r.documentId == documentId) = []
    · rw [if_pos he]
      simp [he]
    · rw [if_neg he]
      have hlen : ¬ (f.inflightRequests.filter
          (fun r => r.documentId == documentId)).length = 0 := by
        intro hlen
        exact he (List.length_eq_zero.mp hlen)
      simp [hlen, he]

/-- Claim C5 (witness): the amended theorem applied at concrete inputs — a
request finishing as the last in-flight one starts a 500 ms timer, the timer
firing declares `networkidle`, and a request starting on an empty set stops
the timer. -/
theorem C5_timer_start_stop_witness :
    (({ FrameState.mkFrame "frame1" none with
          inflightRequests := [⟨"frame1", "", false, false⟩] } : FrameState).inflightRequestFinished
        ⟨"frame1", "", false, false⟩).networkIdleTimer = some 500 ∧
    (exampleTimerFrame.networkIdleTimerFired).networkIdleTimer = none ∧
    "networkidle" ∈ (exampleTimerFrame.networkIdleTimerFired).firedLifecycleEvents ∧
    ((exampleTimerFrame.inflightRequestStarted
        ⟨"frame1", "", false, false⟩)).networkIdleTimer = none := by
  refine ⟨?_, ?_, ?_, ?_⟩
  · exact C5_timer_start_stop.1 _ ⟨"frame1", "", false, false⟩ rfl (by simp) (by decide)
      (by simp [FrameState.mkFrame])
  · exact (C5_timer_start_stop.2.2.2.1 exampleTimerFrame 500 rfl).1
  · exact (C5_timer_start_stop.2.2.2.1 exampleTimerFrame 500 rfl).2
  · exact C5_timer_start_stop.2.2.2.2.1 exampleTimerFrame ⟨"frame1", "", false, false⟩ rfl rfl

/-! ## Claim C6 -/

/-- Claim C6 (counterexample): a frame with a scheduled network-idle timer
still has that timer scheduled after `_onDetached` runs — the detach path
never calls `_stopNetworkIdleTimer`, contradicting "always cancelled on frame
detach". -/
theorem C6_detach_timer_counterexample :
    exampleTimerFrame.networkIdleTimer = some 500 ∧
    (exampleTimerFrame.onDetached).detached = true ∧
    (exampleTimerFrame.onDetached).networkIdleTimer = some 500 := by
  exact ⟨rfl, rfl, rfl⟩

/-- Claim C6 (amended): the network-idle timer is always cancelled on
new-document commit — `clearFrameLifecycle` stops the running timer, and the
resulting timer state is independent of the previously scheduled one (a fresh
one is restarted only when the filtered in-flight set is empty); on frame
detach the timer is NOT cancelled — `_onDetached` leaves it untouched — but
the stale timer's eventual firing is harmless because the detached frame has
been removed from the frame map, where `frameLifecycleEvent` ignores unknown
frame ids. -/
theorem C6_timer_cancellation :
    (∀ (f : FrameState) (url name documentId : String),
        (f.commitNewDocument url name documentId).networkIdleTimer =
          (if f.inflightRequests.filter (fun r => r.documentId == documentId) = []
           then some 500 else none)) ∧
    (∀ (f : FrameState) (t t' : Option Nat) (url name documentId : String),
        (({ f with networkIdleTimer := t } : FrameState).commitNewDocument
            url name documentId).networkIdleTimer =
          (({ f with networkIdleTimer := t' } : FrameState).commitNewDocument
            url name documentId).networkIdleTimer) ∧
    (∀ f : FrameState, (f.onDetached).networkIdleTimer = f.networkIdleTimer) ∧
    (∀ (m : ManagerState) (frameId event : String),
        m.frames.lookup frameId = none →
        m.frameLifecycleEvent frameId event = m) := by
  have hcommit : ∀ (f : FrameState) (url name documentId : String),
      (f.commitNewDocument url name documentId).networkIdleTimer =
        (if f.inflightRequests.filter (fun r => r.documentId == documentId) = []
         then some 500 else none) := by
    intro f url name documentId
    unfold FrameState.commitNewDocument FrameState.clearFrameLifecycle
    unfold FrameState.stopNetworkIdleTimer FrameState.startNetworkIdleTimer
    by_cases he : f.inflightRequests.filter (fun r => r.documentId == documentId) = []
    · rw [if_pos he]
      simp [he]
    · rw [if_neg he]
      have hlen : ¬ (f.inflightRequests.filter
          (fun r => r.documentId == documentId)).length = 0 := by
        intro hlen
        exact he (List.length_eq_zero.mp hlen)
      simp [hlen, he]
  refine ⟨hcommit, ?_, ?_, ?_⟩
  · intro f t t' url name documentId
    rw [hcommit, hcommit]
  · intro f
    rfl
  · intro m frameId event h
    unfold ManagerState.frameLifecycleEvent
    rw [h]

/-- Claim C6 (witness): the amended theorem applied at concrete inputs — a
commit on the timer-carrying frame yields a freshly scheduled 500 ms timer,
and a lifecycle event for a removed frame id is a no-op. -/
theorem C6_timer_cancellation_witness :
    (exampleTimerFrame.commitNewDocument "https://a/" "" "D1").networkIdleTimer = some 500 ∧
    emptyManager.frameLifecycleEvent "frame1" "load" = emptyManager := by
  constructor
  · have h := C6_timer_cancellation.1 exampleTimerFrame "https://a/" "" "D1"
    simpa using h
  · exact C6_timer_cancellation.2.2.2 emptyManager "frame1" "load" rfl

/-! ## Claim C7 -/

/-- A settled latch stays settled through any further retain/release calls. -/
theorem SignalBarrier.run_settled_absorb (ops : List BarrierOp) (b : SignalBarrier)
    (h : b.settled = true) : (b.run ops).settled = true := by
  induction ops generalizing b with
  | nil => exact h
  | cons op rest ih =>
    apply ih
    cases op with
    | retain => simpa [SignalBarrier.step, SignalBarrier.retain] using h
    | release =>
      unfold SignalBarrier.step SignalBarrier.release
      by_cases hz : b.protectCount - 1 = 0 <;> simp [hz, h]

/-- Running calls updates `_protectCount` by their sum. -/
theorem SignalBarrier.run_count (ops : List BarrierOp) (b : SignalBarrier) :
    (b.run ops).protectCount = countFrom b.protectCount ops := by
  induction ops generalizing b with
  | nil => rfl
  | cons op rest ih =>
    cases op with
    | retain =>
      simpa [SignalBarrier.step, SignalBarrier.retain, countFrom, BarrierOp.delta] using
        ih { b with protectCount := b.protectCount + 1 }
    | release =>
      have hstep : b.run (.release :: rest) = (b.release).run rest := rfl
      rw [hstep]
      unfold SignalBarrier.release
      by_cases hz : b.protectCount - 1 = 0
      · rw [if_pos hz]
        have hz' : b.protectCount + -1 = 0 := by omega
        simp only [countFrom, BarrierOp.delta, ih, hz', hz]
      · rw [if_neg hz]
        simp only [countFrom, BarrierOp.delta, ih, sub_eq_add_neg]

/-- An unsettled barrier with a positive count settles exactly when some
prefix of the remaining calls brings the count to zero. -/
theorem SignalBarrier.run_settled_iff (ops : List BarrierOp) (c : Int) (hc : 1 ≤ c) :
    ((SignalBarrier.run ⟨c, false⟩ ops).settled = true ↔
      ∃ n, n ≤ ops.length ∧ countFrom c (ops.take n) = 0) := by
  induction ops generalizing c with
  | nil =>
    constructor
    · intro h
      simp [SignalBarrier.run] at h
    · rintro ⟨n, hn, hcount⟩
      have hz : n = 0 := Nat.le_zero.mp hn
      subst hz
      simp [countFrom] at hcount
      omega
  | cons op rest ih =>
    cases op with
    | retain =>
      have hstep : SignalBarrier.run ⟨c, false⟩ (.retain :: rest) =
          SignalBarrier.run ⟨c + 1, false⟩ rest := rfl
      rw [hstep, ih (c + 1) (by omega)]
      constructor
      · rintro ⟨m, hm, hcount⟩
        refine ⟨m + 1, by simpa using hm, ?_⟩
        simpa [countFrom, BarrierOp.delta] using hcount
      · rintro ⟨n, hn, hcount⟩
        cases n with
        | zero =>
          simp [countFrom] at hcount
          omega
        | succ m =>
          refine ⟨m, by simpa using hn, ?_⟩
          simpa [countFrom, BarrierOp.delta] using hcount
    | release =>
      by_cases hz : c - 1 = 0
      · have hstep : SignalBarrier.run ⟨c, false⟩ (.release :: rest) =
            SignalBarrier.run ⟨c - 1, true⟩ rest := by
          show SignalBarrier.run
            (if c - 1 = 0 then ⟨c - 1, true⟩ else ⟨c - 1, false⟩) rest = _
          rw [if_pos hz]
        constructor
        · intro _
          exact ⟨1, by simp, by simp [countFrom, BarrierOp.delta]; omega⟩
        · intro _
          rw [hstep]
          exact SignalBarrier.run_settled_absorb rest _ rfl
      · have hstep : SignalBarrier.run ⟨c, false⟩ (.release :: rest) =
            SignalBarrier.run ⟨c - 1, false⟩ rest := by
          show SignalBarrier.run
            (if c - 1 = 0 then ⟨c - 1, true⟩ else ⟨c - 1, false⟩) rest = _
          rw [if_neg hz]
        rw [hstep, ih (c - 1) (by omega)]
        constructor
        · rintro ⟨m, hm, hcount⟩
          refine ⟨m + 1, by simpa using hm, ?_⟩
          simpa [countFrom, BarrierOp.delta] using hcount
        · rintro ⟨n, hn, hcount⟩
          cases n with
          | zero =>
            simp [countFrom] at hcount
            omega
          | succ m =>
            refine ⟨m, by simpa using hn, ?_⟩
            simpa [countFrom, BarrierOp.delta] using hcount

/-- Claim C7: a `SignalBarrier` is created with `protectCount = 1` (the
self-retain that `waitFor` releases); running any interleaving of
retain/release calls tracks the count exactly; the latch is settled after a
trace precisely when some prefix of it has brought the count to zero (so it
settles at the first such moment, settles at most once — the settled state is
monotone — and never settles while every prefix keeps the count positive). -/
theorem C7_signal_barrier_latch :
    SignalBarrier.new.protectCount = 1 ∧
    (∀ ops : List BarrierOp, (SignalBarrier.new.run ops).protectCount = countFrom 1 ops) ∧
    (∀ ops : List BarrierOp,
        ((SignalBarrier.new.run ops).settled = true ↔
          ∃ n, n ≤ ops.length ∧ countFrom 1 (ops.take n) = 0)) ∧
    (∀ (ops : List BarrierOp) (n m : Nat), n ≤ m →
        (SignalBarrier.new.run (ops.take n)).settled = true →
        (SignalBarrier.new.run (ops.take m)).settled = true) := by
  have hnew : SignalBarrier.new = ⟨1, false⟩ := rfl
  have hiff : ∀ ops : List BarrierOp,
      ((SignalBarrier.new.run ops).settled = true ↔
        ∃ n, n ≤ ops.length ∧ countFrom 1 (ops.take n) = 0) := by
    intro ops
    rw [hnew]
    exact SignalBarrier.run_settled_iff ops 1 (le_refl 1)
  refine ⟨rfl, ?_, hiff, ?_⟩
  · intro ops
    rw [hnew]
    exact SignalBarrier.run_count ops ⟨1, false⟩
  · intro ops n m hnm h
    obtain ⟨k, hk, hcount⟩ := (hiff (ops.take n)).mp h
    apply (hiff (ops.take m)).mpr
    have hk' : k ≤ n ∧ k ≤ ops.length := by
      simp only [List.length_take] at hk
      omega
    refine ⟨k, ?_, ?_⟩
    · simp only [List.length_take]
      omega
    · have e1 : (ops.take n).take k = ops.take k := by
        rw [List.take_take]
        congr 1
        omega
      have e2 : (ops.take m).take k = ops.take k := by
        rw [List.take_take]
        congr 1
        omega
      rw [e2, ← e1]
      exact hcount

/-- Claim C7 (witness): the theorem applied at a concrete trace — releasing
the self-retain settles the latch (count 1 → 0). -/
theorem C7_signal_barrier_latch_witness :
    (SignalBarrier.new.run [BarrierOp.release]).settled = true := by
  exact (C7_signal_barrier_latch.2.2.1 [BarrierOp.release]).mpr ⟨1, by decide, by decide⟩

/-! ## Claim C8 -/

/-- Claim C8 (counterexample): a fresh frame's main-world `contextPromise` is
pending; after `_onDetached` runs the frame is detached but that promise is
still pending — detachment never rejects a pending context acquisition, so a
caller already awaiting the slot's promise waits forever, contradicting the
claim. -/
theorem C8_pending_context_counterexample :
    (FrameState.mkFrame "frame1" none).mainWorld.contextPromise = PromiseState.pending ∧
    ((FrameState.mkFrame "frame1" none).onDetached).detached = true ∧
    ((FrameState.mkFrame "frame1" none).onDetached).mainWorld.contextPromise =
      PromiseState.pending := by
  exact ⟨rfl, rfl, rfl⟩

/-- Claim C8 (amended): calling `_context(world)` on a detached frame fails
with the error `Execution Context is not available in detached frame "<url>"
(are you trying to evaluate?)`; detachment terminates the frame's rerunnable
tasks (rejecting their pending promises with the frame-detached error) but
leaves both slots' `contextPromise` exactly as they were, so an already
pending context acquisition is never rejected by the detachment. -/
theorem C8_context_detached :
    (∀ (f : FrameState) (w : WorldKind), f.detached = true →
        f.context w = .error ("Execution Context is not available in detached frame \"" ++
          f.url ++ "\" (are you trying to evaluate?)")) ∧
    (∀ f : FrameState,
        (f.onDetached).mainWorld.contextPromise = f.mainWorld.contextPromise ∧
        (f.onDetached).utilityWorld.contextPromise = f.utilityWorld.contextPromise) ∧
    (∀ f : FrameState,
        (f.onDetached).mainWorld.rerunnableTasks =
          f.mainWorld.rerunnableTasks.map
            (fun t => t.terminate "waitForFunction failed: frame got detached.") ∧
        (f.onDetached).utilityWorld.rerunnableTasks =
          f.utilityWorld.rerunnableTasks.map
            (fun t => t.terminate "waitForFunction failed: frame got detached.")) := by
  refine ⟨?_, ?_, ?_⟩
  · intro f w h
    unfold FrameState.context
    rw [if_pos (by simp [h])]
  · intro f
    exact ⟨rfl, rfl⟩
  · intro f
    exact ⟨rfl, rfl⟩

/-- Claim C8 (witness): the amended theorem applied at a concrete detached
frame. -/
theorem C8_context_detached_witness :
    ({ FrameState.mkFrame "frame1" none with detached := true, url := "https://a/" } :
        FrameState).context WorldKind.main =
      .error "Execution Context is not available in detached frame \"https://a/\" (are you trying to evaluate?)" := by
  exact C8_context_detached.1
    { FrameState.mkFrame "frame1" none with detached := true, url := "https://a/" }
    WorldKind.main rfl

/-! ## Claim C9 -/

/-- Claim C9: `_contextCreated(world, ctx)` on a slot that already holds
`ctx` tears the slot down and reinstalls `ctx`, leaving the slot holding
`ctx` with a single `contextPromise` resolved with `ctx` (and the registered
rerunnable tasks intact); repeating the call changes nothing further, and a
subsequent `_context(world)` on the non-detached frame yields the resolved
promise carrying `ctx`. -/
theorem C9_contextCreated_idempotent :
    (∀ (d : ContextData) (ctx : Nat), d.context = some ctx →
        d.contextCreated ctx =
          { context := some ctx, contextPromise := PromiseState.resolved ctx,
            rerunnableTasks := d.rerunnableTasks }) ∧
    (∀ (d : ContextData) (ctx : Nat), d.context = some ctx →
        (d.contextCreated ctx).contextCreated ctx = d.contextCreated ctx) ∧
    (∀ (f : FrameState) (ctx : Nat), f.detached = false → f.mainWorld.context = some ctx →
        ({ f with mainWorld := f.mainWorld.contextCreated ctx } : FrameState).context
            WorldKind.main = .ok (PromiseState.resolved ctx)) := by
  have hfirst : ∀ (d : ContextData) (ctx : Nat), d.context = some ctx →
      d.contextCreated ctx =
        { context := some ctx, contextPromise := PromiseState.resolved ctx,
          rerunnableTasks := d.rerunnableTasks } := by
    intro d ctx h
    unfold ContextData.contextCreated ContextData.setContext
    rw [if_pos (by simp [h])]
    rfl
  refine ⟨hfirst, ?_, ?_⟩
  · intro d ctx h
    rw [hfirst d ctx h]
    exact hfirst _ ctx rfl
  · intro f ctx hdet hctx
    unfold FrameState.context
    rw [if_neg (by simp [hdet])]
    rw [show ({ f with mainWorld := f.mainWorld.contextCreated ctx } :
          FrameState).world WorldKind.main = f.mainWorld.contextCreated ctx from rfl]
    rw [hfirst f.mainWorld ctx hctx]

/-- Claim C9 (witness): the theorem applied at a concrete slot holding
context 7. -/
theorem C9_contextCreated_idempotent_witness :
    (ContextData.contextCreated
        { context := some 7, contextPromise := PromiseState.resolved 7,
          rerunnableTasks := [] } 7) =
      { context := some 7, contextPromise := PromiseState.resolved 7,
        rerunnableTasks := [] } := by
  exact C9_contextCreated_idempotent.1
    { context := some 7, contextPromise := PromiseState.resolved 7, rerunnableTasks := [] }
    7 rfl

/-! ## Claim C10 -/

/-- Claim C10: for a frame id absent from the frame map, the handlers
`frameRequestedNavigation`, `frameUpdatedDocumentIdForNavigation`,
`frameCommittedSameDocumentNavigation`, `frameDetached`,
`frameLifecycleEvent` (and hence `frameStoppedLoading`) are no-ops, returning
the manager state unchanged — frames, barriers, timers and the emitted-event
trace included; `frameCommittedNewDocumentNavigation` instead dereferences
the missing entry and is not total (`none` in the model). -/
theorem C10_unknown_frame_handlers (m : ManagerState) (frameId : String)
    (h : m.frames.lookup frameId = none) :
    (∀ documentId, m.frameRequestedNavigation frameId documentId = m) ∧
    (∀ documentId, m.frameUpdatedDocumentIdForNavigation frameId documentId = m) ∧
    (∀ url, m.frameCommittedSameDocumentNavigation frameId url = m) ∧
    m.frameDetached frameId = m ∧
    (∀ event, m.frameLifecycleEvent frameId event = m) ∧
    m.frameStoppedLoading frameId = m ∧
    (∀ url name documentId initial,
        m.frameCommittedNewDocumentNavigation frameId url name documentId initial = none) := by
  have hlife : ∀ event, m.frameLifecycleEvent frameId event = m := by
    intro event
    unfold ManagerState.frameLifecycleEvent
    rw [h]
  refine ⟨?_, ?_, ?_, ?_, hlife, ?_, ?_⟩
  · intro documentId
    unfold ManagerState.frameRequestedNavigation
    rw [h]
  · intro documentId
    unfold ManagerState.frameUpdatedDocumentIdForNavigation
    rw [h]
  · intro url
    unfold ManagerState.frameCommittedSameDocumentNavigation
    rw [h]
  · unfold ManagerState.frameDetached
    rw [h]
  · unfold ManagerState.frameStoppedLoading
    rw [hlife, hlife]
  · intro url name documentId initial
    unfold ManagerState.frameCommittedNewDocumentNavigation
    rw [h]

/-- Claim C10 (witness): the theorem applied at the empty manager. -/
theorem C10_unknown_frame_handlers_witness :
    emptyManager.frameDetached "frame1" = emptyManager ∧
    emptyManager.frameStoppedLoading "frame1" = emptyManager ∧
    emptyManager.frameCommittedNewDocumentNavigation "frame1" "https://a/" "" "D1" false =
      none := by
  have h := C10_unknown_frame_handlers emptyManager "frame1" rfl
  exact ⟨h.2.2.2.1, h.2.2.2.2.2.1, h.2.2.2.2.2.2 "https://a/" "" "D1" false⟩
